import Mathlib

/-!
Shallow embedding of `src/extension/components/ReactPerfDevtool.js`: the
measure collection and aggregation pipeline of the React performance
devtool panel.  The module-level `store`, the React component state, the
query set evaluated in the inspected window, the polling handlers and the
user actions (Clear, Reload) are modelled by explicit state passing; each
handler returns the successor state together with the ordered list of side
effects it issues (queries evaluated through the channel, timer control,
reload triggers, chart drawing).  Durations are modelled as rationals,
which is exact for the decimal literals appearing in the scenarios.
-/

/-- One normalized per-component measure record as consumed by
`updateMeasures`; the component code reads only the `totalTimeSpent`
field of these records, so that is the field modelled. -/
structure Measure where
  totalTimeSpent : ℚ
  deriving DecidableEq

/-- One raw performance entry with its category kind and duration; the
component stores these opaquely in `state.rawMeasures` (only the
out-of-scope util helpers inspect their fields). -/
structure RawMeasure where
  kind : String
  duration : ℚ
  deriving DecidableEq

/-- A value delivered by the evaluation channel to a callback.  On
success the channel delivers the JSON-encoded string produced by the
query (`JSON.stringify` results); `undefined` is delivered for the
`clear` statement.  The JS number case is included so that the
`count === 0` comparison in `getMeasuresLength` can be stated. -/
inductive JSValue where
  | str : String → JSValue
  | num : Int → JSValue
  | undef : JSValue
  deriving DecidableEq

/-- JS strict equality `===` on such values: values of different runtime
types are never strictly equal. -/
def jsStrictEq : JSValue → JSValue → Bool
  | JSValue.str a, JSValue.str b => a == b
  | JSValue.num a, JSValue.num b => a == b
  | JSValue.undef, JSValue.undef => true
  | _, _ => false

/-- Numeric value of a decimal digit character. -/
def digitVal (c : Char) : Nat := c.toNat - 48

/-- Accumulating decimal read of a digit list. -/
def parseNatChars : List Char → Nat → Nat
  | [], acc => acc
  | c :: cs, acc => parseNatChars cs (acc * 10 + digitVal c)

/-- Decimal reading of a digit string. -/
def parseNat (s : String) : Nat := parseNatChars s.data 0

/-- `JSON.parse` as applied by the component to the result of the
`measuresLength` query: that result is `JSON.stringify` of the external
buffer's `length`, i.e. the decimal string of a natural number. -/
def jsonParse (v : JSValue) : Int :=
  match v with
  | JSValue.str s => (parseNat s : Int)
  | JSValue.num n => n
  | JSValue.undef => 0

/-- The four fixed queries evaluated in the inspected window. -/
inductive QueryName where
  | measuresLength
  | measures
  | rawMeasures
  | clear
  deriving DecidableEq

/-- The source expressions of the query set (the module-level `queries`
object; the multi-line `clear` template literal is rendered on one line,
its whitespace being immaterial to the evaluated statement). -/
def queries : QueryName → String
  | QueryName.measuresLength =>
      "JSON.stringify(__REACT_PERF_DEVTOOL_GLOBAL_STORE__.length)"
  | QueryName.measures =>
      "JSON.stringify(__REACT_PERF_DEVTOOL_GLOBAL_STORE__.measures)"
  | QueryName.rawMeasures =>
      "JSON.stringify(__REACT_PERF_DEVTOOL_GLOBAL_STORE__.rawMeasures)"
  | QueryName.clear =>
      "__REACT_PERF_DEVTOOL_GLOBAL_STORE__ = \x7b length: 0, measures: [], rawMeasures: [] \x7d"

/-- Side effects a handler issues, in order: evaluating one of the four
queries through the channel, reloading the inspected window, reloading
the panel's own window, installing or cancelling the two-second interval
timer, and drawing the chart (with the total-time string, the raw
measures and the component count passed to `drawChart`). -/
inductive Effect where
  | evalQuery : QueryName → Effect
  | reloadInspectedWindow : Effect
  | browserReload : Effect
  | startTimer : Effect
  | stopTimer : Effect
  | drawChart : String → List RawMeasure → Nat → Effect
  deriving DecidableEq

/-- The external buffer `__REACT_PERF_DEVTOOL_GLOBAL_STORE__` owned by
the inspected page. -/
structure ExtStore where
  length : Nat
  measures : List Measure
  rawMeasures : List RawMeasure
  deriving DecidableEq

/-- Effect of one query on the external buffer: the three read queries
leave it unchanged, the `clear` statement assigns the empty buffer. -/
def applyQueryToExt (q : QueryName) (b : ExtStore) : ExtStore :=
  match q with
  | QueryName.clear => { length := 0, measures := [], rawMeasures := [] }
  | _ => b

/-- Effect of a list of issued effects on the external buffer (only the
evaluated queries touch it). -/
def applyEffectsToExt (efs : List Effect) (b : ExtStore) : ExtStore :=
  efs.foldl
    (fun acc e =>
      match e with
      | Effect.evalQuery q => applyQueryToExt q acc
      | _ => acc)
    b

/-- Successful channel result of the `measuresLength` query on buffer
`b`: `JSON.stringify` of its length, delivered as a string. -/
def evalLength (b : ExtStore) : JSValue := JSValue.str (toString b.length)

/-- The component's `totalTime` state field holds the JS number `0`
initially and after a clear, and a `toFixed(2)` string after a merge. -/
inductive TimeVal where
  | num : ℚ → TimeVal
  | str : String → TimeVal
  deriving DecidableEq

/-- `Number.prototype.toFixed(2)` for the nonnegative totals arising
here: the value rounded to the nearest hundredth (ties upward) and
printed with exactly two digits after the decimal point. -/
def fixed2 (q : ℚ) : String :=
  let n : ℤ := ⌊q * 100 + 1 / 2⌋
  let i := n / 100
  let f := (n % 100).natAbs
  toString i ++ "." ++ (if f < 10 then "0" ++ toString f else toString f)

/-- `store.reduce((acc, comp) => acc + comp.totalTimeSpent, 0)`. -/
def totalTimeOf (st : List Measure) : ℚ :=
  st.foldl (fun acc comp => acc + comp.totalTimeSpent) 0

/-- The React component state (`this.state`), with the fields set in the
constructor. -/
structure ComponentState where
  perfData : List Measure
  totalTime : TimeVal
  pendingEvents : Int
  rawMeasures : List RawMeasure
  loading : Bool
  hasError : Bool
  showChart : Bool
  deriving DecidableEq

/-- The whole panel: the module-level `store`, the component state, and
whether the interval timer is installed (`this.timer` non-null). -/
structure PanelState where
  store : List Measure
  state : ComponentState
  timerActive : Bool
  deriving DecidableEq

namespace ReactPerfDevtool

/-- `setErrorState`: `this.setState({ hasError: true, loading: false })`. -/
def setErrorState (s : PanelState) : PanelState :=
  { s with state := { s.state with hasError := true, loading := false } }

/-- `clearMeasures`: `this.evaluate(queries['clear'])`. -/
def clearMeasures : List Effect := [Effect.evalQuery QueryName.clear]

/-- `getMeasures`: calls `getRawMeasures` (issuing the `rawMeasures`
query) and then issues the `measures` query; the results arrive later as
callback events. -/
def getMeasures (s : PanelState) : PanelState × List Effect :=
  (s, [Effect.evalQuery QueryName.rawMeasures, Effect.evalQuery QueryName.measures])

/-- `shouldRenderMeasures`: fetches the measures only when
`this.state.perfData.length === 0`. -/
def shouldRenderMeasures (s : PanelState) : PanelState × List Effect :=
  if s.state.perfData.length = 0 then getMeasures s else (s, [])

/-- `updateEventsCount`: records the pending event count, stops the
loading indicator and runs `shouldRenderMeasures`. -/
def updateEventsCount (count : Int) (s : PanelState) : PanelState × List Effect :=
  shouldRenderMeasures
    { s with state := { s.state with pendingEvents := count, loading := false } }

/-- The callback of `getMeasuresLength`:
`if (err || count === 0) setErrorState() else updateEventsCount(JSON.parse(count))`. -/
def getMeasuresLengthCb (count : JSValue) (err : Bool) (s : PanelState) :
    PanelState × List Effect :=
  if err || jsStrictEq count (JSValue.num 0) then (setErrorState s, [])
  else updateEventsCount (jsonParse count) s

/-- `updateMeasures`: appends the fetched batch to the module-level
store, draws the chart, publishes the new store and its `toFixed(2)`
total into the component state, and finally calls `clearMeasures`. -/
def updateMeasures (measures : List Measure) (s : PanelState) :
    PanelState × List Effect :=
  let store1 := s.store ++ measures
  let tt := fixed2 (totalTimeOf store1)
  ({ s with
      store := store1,
      state := { s.state with perfData := store1, totalTime := TimeVal.str tt } },
   [Effect.drawChart tt s.state.rawMeasures store1.length] ++ clearMeasures)

/-- The callback of the `measures` query inside `getMeasures`. -/
def getMeasuresCb (measures : List Measure) (err : Bool) (s : PanelState) :
    PanelState × List Effect :=
  if err then (setErrorState s, []) else updateMeasures measures s

/-- The callback of the `rawMeasures` query inside `getRawMeasures`. -/
def getRawMeasuresCb (rms : List RawMeasure) (err : Bool) (s : PanelState) :
    PanelState × List Effect :=
  if err then (setErrorState s, [])
  else ({ s with state := { s.state with rawMeasures := rms } }, [])

/-- The `clear` method bound to the Clear button: empties the module
store, resets `perfData`, `totalTime`, `rawMeasures`, `pendingEvents`
and `showChart`, issues the external clear query and cancels the timer
when one is installed. -/
def clear (s : PanelState) : PanelState × List Effect :=
  ({ store := [],
     state := { s.state with
                  perfData := [], totalTime := TimeVal.num 0,
                  rawMeasures := [], pendingEvents := 0, showChart := false },
     timerActive := false },
   clearMeasures ++ (if s.timerActive then [Effect.stopTimer] else []))

/-- `componentWillMount`: reloads the inspected window once when the
module-level store is still empty. -/
def componentWillMount (s : PanelState) : PanelState × List Effect :=
  if s.store.length = 0 then (s, [Effect.reloadInspectedWindow]) else (s, [])

/-- `componentDidMount`: shows the loading indicator, installs the
two-second interval timer and enables the chart. -/
def componentDidMount (s : PanelState) : PanelState × List Effect :=
  ({ s with
      state := { s.state with loading := true, showChart := true },
      timerActive := true },
   [Effect.startTimer])

/-- `componentWillUnmount`: `this.timer && clearInterval(this.timer)`. -/
def componentWillUnmount (s : PanelState) : PanelState × List Effect :=
  ({ s with timerActive := false },
   if s.timerActive then [Effect.stopTimer] else [])

/-- The `reload` method bound to the Reload button: `clear()`, then the
panel's own window reload, `setState({ loading: true })`, and the
inspected window reload. -/
def reload (s : PanelState) : PanelState × List Effect :=
  let c := clear s
  ({ c.1 with state := { c.1.state with loading := true } },
   c.2 ++ [Effect.browserReload, Effect.reloadInspectedWindow])

/-- External stimuli of the panel: React lifecycle transitions, timer
ticks (each issuing the `measuresLength` query via `getMeasuresLength`),
channel callback deliveries (tagged with the channel's error flag), and
the user's Clear and Reload buttons.  Callback events may be delivered
at any time — in particular after a clear or an unmount — which models
in-flight evaluations resolving late. -/
inductive Event where
  | mount
  | tick
  | lengthCb (count : JSValue) (err : Bool)
  | measuresCb (ms : List Measure) (err : Bool)
  | rawMeasuresCb (rms : List RawMeasure) (err : Bool)
  | userClear
  | userReload
  | unmount
  deriving DecidableEq

/-- One transition of the panel, returning the successor state and the
effects issued during the transition. -/
def step (s : PanelState) : Event → PanelState × List Effect
  | Event.mount =>
      let a := componentWillMount s
      let b := componentDidMount a.1
      (b.1, a.2 ++ b.2)
  | Event.tick =>
      if s.timerActive then (s, [Effect.evalQuery QueryName.measuresLength])
      else (s, [])
  | Event.lengthCb c e => getMeasuresLengthCb c e s
  | Event.measuresCb ms e => getMeasuresCb ms e s
  | Event.rawMeasuresCb rms e => getRawMeasuresCb rms e s
  | Event.userClear => clear s
  | Event.userReload => reload s
  | Event.unmount => componentWillUnmount s

/-- The state at module initialisation plus the constructor: empty
module store and the constructor's component state. -/
def initialState : PanelState :=
  { store := [],
    state := { perfData := [], totalTime := TimeVal.num 0, pendingEvents := 0,
               rawMeasures := [], loading := false, hasError := false,
               showChart := false },
    timerActive := false }

/-- Folding a sequence of events through `step`, keeping the states. -/
def runEvents (s : PanelState) (es : List Event) : PanelState :=
  es.foldl (fun t e => (step t e).1) s

/-- The measure batch an event merges into the store: nonempty only for
a successfully delivered `measures` callback. -/
def batchOf : Event → List Measure
  | Event.measuresCb ms false => ms
  | _ => []

/-- Whether an event resets the module store (the Clear button, and the
Reload button which begins with `clear()`). -/
def clearsStore : Event → Bool
  | Event.userClear => true
  | Event.userReload => true
  | _ => false

/-- The panel state right after an error was recorded by a failed poll. -/
def erroredState : PanelState := setErrorState initialState

/-- The panel state right after mounting from the initial state. -/
def mountedState : PanelState := (step initialState Event.mount).1

/-- A panel state in which one measure has already been merged: the
module store and `perfData` both hold it. -/
def busyState : PanelState :=
  { initialState with
      store := [⟨3⟩],
      state := { initialState.state with perfData := [⟨3⟩] } }

/-- The panel state reached by mounting and then pressing Clear while a
fetch may still be in flight. -/
def afterClearState : PanelState := (step mountedState Event.userClear).1

/-- The measure batch of the numerical scenario: totalTimeSpent values
1.5, 2.5 and 0.0. -/
def scenarioBatch : List Measure := [⟨3/2⟩, ⟨5/2⟩, ⟨0⟩]

/-- A clear-free event sequence merging a batch of one and a batch of
two measures around an idle tick. -/
def demoEvents : List Event :=
  [Event.measuresCb [⟨3⟩] false, Event.tick, Event.measuresCb [⟨3⟩, ⟨3⟩] false]

/-- A successfully delivered length callback carrying the string `t`
(every successful delivery of the `measuresLength` query is a string)
runs `updateEventsCount` on the parsed count: the `count === 0` branch
cannot fire on a string. -/
theorem step_lengthCb_str (s : PanelState) (t : String) :
    step s (Event.lengthCb (JSValue.str t) false) =
      updateEventsCount (jsonParse (JSValue.str t)) s := by
  simp [step, getMeasuresLengthCb, jsStrictEq]

/-- `updateEventsCount` only records the count and stops the loading
indicator; the store, the timer and every other state field are
untouched (in particular `hasError` is left as it was). -/
theorem updateEventsCount_preserves (n : Int) (s : PanelState) :
    (updateEventsCount n s).1.store = s.store ∧
    (updateEventsCount n s).1.timerActive = s.timerActive ∧
    (updateEventsCount n s).1.state.perfData = s.state.perfData ∧
    (updateEventsCount n s).1.state.totalTime = s.state.totalTime ∧
    (updateEventsCount n s).1.state.rawMeasures = s.state.rawMeasures ∧
    (updateEventsCount n s).1.state.showChart = s.state.showChart ∧
    (updateEventsCount n s).1.state.hasError = s.state.hasError ∧
    (updateEventsCount n s).1.state.pendingEvents = n ∧
    (updateEventsCount n s).1.state.loading = false := by
  simp only [updateEventsCount, shouldRenderMeasures]
  split
  · simp [getMeasures]
  · simp

/-- The effects issued by `updateEventsCount` are exactly the two fetch
queries when `perfData` is empty, and nothing otherwise. -/
theorem updateEventsCount_effects (n : Int) (s : PanelState) :
    (updateEventsCount n s).2 =
      (if s.state.perfData.length = 0 then
        [Effect.evalQuery QueryName.rawMeasures, Effect.evalQuery QueryName.measures]
       else []) := by
  simp only [updateEventsCount, shouldRenderMeasures]
  split
  · simp_all [getMeasures]
  · simp_all

/-- Store characterization of a single step: every transition either
appends its (possibly empty) successfully delivered measure batch to the
store, or — for the Clear and Reload buttons only — resets it to the
empty store. -/
theorem step_store (s : PanelState) (e : Event) :
    (step s e).1.store = s.store ++ batchOf e ∨
      ((step s e).1.store = [] ∧ clearsStore e = true) := by
  cases e with
  | mount =>
      left
      simp only [step, componentDidMount, componentWillMount, batchOf]
      split <;> simp
  | tick =>
      left
      simp only [step, batchOf]
      split <;> simp
  | lengthCb c err =>
      left
      simp only [step, getMeasuresLengthCb, batchOf]
      split
      · simp [setErrorState]
      · simpa using (updateEventsCount_preserves _ s).1
  | measuresCb ms err =>
      cases err with
      | false => left; simp [step, getMeasuresCb, updateMeasures, batchOf]
      | true => left; simp [step, getMeasuresCb, setErrorState, batchOf]
  | rawMeasuresCb rms err =>
      left
      simp only [step, getRawMeasuresCb, batchOf]
      split <;> simp [setErrorState]
  | userClear => right; simp [step, clear, clearsStore]
  | userReload => right; simp [step, reload, clear, clearsStore]
  | unmount => left; simp [step, componentWillUnmount, batchOf]

/-- A step by an event other than Clear and Reload appends its batch. -/
theorem step_store_of_not_clears (s : PanelState) (e : Event)
    (h : clearsStore e = false) :
    (step s e).1.store = s.store ++ batchOf e := by
  rcases step_store s e with h1 | ⟨h1, h2⟩
  · exact h1
  · rw [h] at h2; cases h2

/-- Claim C1 (code bug): a successful length poll does not reset
`hasError`.  Starting from a state in which a previous poll had recorded
an error, delivering the count "3" with no channel error takes the
success path (it records `pendingEvents = 3` and stops loading) yet
leaves `hasError = true`, while the claim requires `hasError` to be
false after any successful poll. -/
theorem C1_hasError_not_reset_on_success :
    ((step erroredState (Event.lengthCb (JSValue.str "3") false)).1.state.hasError
        = true) ∧
    ((step erroredState (Event.lengthCb (JSValue.str "3") false)).1.state.pendingEvents
        = 3) ∧
    ((step erroredState (Event.lengthCb (JSValue.str "3") false)).1.state.loading
        = false) := by
  decide

/-- Claim C2, counterexample: from the freshly mounted panel (module
store empty), the very first poll reporting zero events — the channel
delivers the string "0" — does not trigger a reload of the inspected
window: no reload effect is issued by that step, contradicting the
claim that the zero first poll triggers the one-shot reload. -/
theorem C2_zero_poll_issues_no_reload :
    mountedState.store = [] ∧
    Effect.reloadInspectedWindow ∉
      (step mountedState (Event.lengthCb (JSValue.str "0") false)).2 := by
  decide

/-- Claim C2, amended: the one-shot reload of the inspected window is
issued at mount time, exactly when the module-level store is empty; the
polling itself — a tick or a length callback, zero count or not — never
issues a reload; and a successful zero-count poll leaves `hasError`
unchanged (in particular it stays false), since the zero branch of the
guard cannot fire on the delivered string. -/
theorem C2_reload_at_mount_when_store_empty :
    (∀ s : PanelState, s.store = [] →
      Effect.reloadInspectedWindow ∈ (step s Event.mount).2) ∧
    (∀ s : PanelState, s.store ≠ [] →
      Effect.reloadInspectedWindow ∉ (step s Event.mount).2) ∧
    (∀ (s : PanelState) (c : JSValue) (e : Bool),
      Effect.reloadInspectedWindow ∉ (step s (Event.lengthCb c e)).2) ∧
    (∀ s : PanelState, Effect.reloadInspectedWindow ∉ (step s Event.tick).2) ∧
    (∀ s : PanelState,
      (step s (Event.lengthCb (JSValue.str "0") false)).1.state.hasError =
        s.state.hasError) := by
  refine ⟨?_, ?_, ?_, ?_, ?_⟩
  · intro s h
    simp [step, componentWillMount, componentDidMount, h]
  · intro s h
    simp [step, componentWillMount, componentDidMount, List.length_eq_zero, h]
  · intro s c e
    simp only [step, getMeasuresLengthCb]
    split
    · simp
    · rw [updateEventsCount_effects]
      split <;> simp
  · intro s
    simp only [step]
    split <;> simp
  · intro s
    rw [step_lengthCb_str]
    exact (updateEventsCount_preserves _ s).2.2.2.2.2.2.1

/-- Witness for C2: mounting from the initial state (empty store) issues
the reload; mounting from a state whose store already holds a measure
does not. -/
theorem C2_reload_at_mount_witness :
    Effect.reloadInspectedWindow ∈ (step initialState Event.mount).2 ∧
    Effect.reloadInspectedWindow ∉ (step busyState Event.mount).2 :=
  ⟨C2_reload_at_mount_when_store_empty.1 initialState rfl,
   C2_reload_at_mount_when_store_empty.2.1 busyState (by decide)⟩

/-- Claim C3, counterexample: on a tick whose length query returns the
nonzero count "5" with no error but whose local `perfData` is nonempty,
the panel issues no effect at all — neither the raw nor the normalized
measures are fetched and nothing is merged — contradicting the claim
that fetch and merge happen on every such tick. -/
theorem C3_no_fetch_when_perfData_nonempty :
    busyState.state.perfData ≠ [] ∧
    (step busyState (Event.lengthCb (JSValue.str "5") false)).2 = [] ∧
    (step busyState (Event.lengthCb (JSValue.str "5") false)).1.store =
      busyState.store := by
  decide

/-- Claim C3, amended: on a tick where the length query succeeds, the
fetch of the raw and normalized measures is issued only under the local
condition `perfData.length === 0`: when `perfData` is empty the step
issues exactly the rawMeasures and measures queries, and when it is
nonempty the step issues no effect and the store is not changed. -/
theorem C3_fetch_only_when_perfData_empty :
    ∀ (s : PanelState) (c : String),
      (s.state.perfData = [] →
        (step s (Event.lengthCb (JSValue.str c) false)).2 =
          [Effect.evalQuery QueryName.rawMeasures,
           Effect.evalQuery QueryName.measures]) ∧
      (s.state.perfData ≠ [] →
        (step s (Event.lengthCb (JSValue.str c) false)).2 = [] ∧
        (step s (Event.lengthCb (JSValue.str c) false)).1.store = s.store) := by
  intro s c
  constructor
  · intro h
    rw [step_lengthCb_str, updateEventsCount_effects]
    simp [h]
  · intro h
    rw [step_lengthCb_str]
    refine ⟨?_, (updateEventsCount_preserves _ s).1⟩
    rw [updateEventsCount_effects]
    simp [List.length_eq_zero, h]

/-- Witness for C3: with empty `perfData` the successful poll issues the
two fetch queries; with a nonempty `perfData` it issues nothing. -/
theorem C3_fetch_witness :
    (step initialState (Event.lengthCb (JSValue.str "5") false)).2 =
      [Effect.evalQuery QueryName.rawMeasures,
       Effect.evalQuery QueryName.measures] ∧
    (step busyState (Event.lengthCb (JSValue.str "5") false)).2 = [] :=
  ⟨(C3_fetch_only_when_perfData_empty initialState "5").1 rfl,
   ((C3_fetch_only_when_perfData_empty busyState "5").2 (by decide)).1⟩

/-- Claim C4: between clears the store is append-only.  Running any
clear-free event sequence appends exactly the successfully delivered
measure batches, in arrival order, after the existing elements — so the
previously inserted prefix is untouched and the length grows by the sum
of the batch sizes — and a single step either appends a batch or (for
the Clear and Reload buttons only) resets the store to empty: merge and
full clear are the only mutation paths. -/
theorem C4_store_append_only :
    (∀ (es : List Event) (s : PanelState), (∀ e ∈ es, clearsStore e = false) →
      (runEvents s es).store = s.store ++ (es.map batchOf).flatten ∧
      (runEvents s es).store.length =
        s.store.length + ((es.map batchOf).map List.length).sum) ∧
    (∀ (s : PanelState) (e : Event),
      (step s e).1.store = s.store ++ batchOf e ∨
        ((step s e).1.store = [] ∧ clearsStore e = true)) := by
  constructor
  · have key : ∀ (es : List Event) (s : PanelState),
        (∀ e ∈ es, clearsStore e = false) →
        (runEvents s es).store = s.store ++ (es.map batchOf).flatten := by
      intro es
      induction es with
      | nil => intro s _; simp [runEvents]
      | cons e es ih =>
          intro s h
          have he : clearsStore e = false := h e (List.mem_cons_self e es)
          have hrest : ∀ x ∈ es, clearsStore x = false := fun x hx =>
            h x (List.mem_cons_of_mem e hx)
          have hr : runEvents s (e :: es) = runEvents (step s e).1 es := by
            simp [runEvents]
          rw [hr, ih (step s e).1 hrest, step_store_of_not_clears s e he]
          simp [List.append_assoc]
    intro es s h
    refine ⟨key es s h, ?_⟩
    rw [key es s h]
    simp [List.length_append, List.length_flatten]
  · exact step_store

/-- Witness for C4: running the clear-free demo sequence (a batch of
one, an idle tick, a batch of two) from the initial empty store yields
the concatenated batches, of length 3. -/
theorem C4_store_append_only_witness :
    (runEvents initialState demoEvents).store =
      initialState.store ++ (demoEvents.map batchOf).flatten ∧
    (runEvents initialState demoEvents).store.length = 3 := by
  refine ⟨(C4_store_append_only.1 demoEvents initialState (by decide)).1, ?_⟩
  rw [(C4_store_append_only.1 demoEvents initialState (by decide)).2]
  decide

/-- Claim C5: for every prior state the Clear button leaves the store
empty (length 0), resets `perfData` and sets `totalTime` to the number
0, resets `pendingEvents`, issues the external clear query and cancels
the polling timer; and no event other than a mount ever turns the timer
back on — after a clear, polling is re-armed only through the reload
path, whose panel-window reload leads to a remount. -/
theorem C5_clear_resets_and_stops_timer :
    (∀ s : PanelState,
      (step s Event.userClear).1.store = [] ∧
      (step s Event.userClear).1.state.perfData = [] ∧
      (step s Event.userClear).1.state.totalTime = TimeVal.num 0 ∧
      (step s Event.userClear).1.state.pendingEvents = 0 ∧
      (step s Event.userClear).1.timerActive = false ∧
      Effect.evalQuery QueryName.clear ∈ (step s Event.userClear).2) ∧
    (∀ (s : PanelState) (e : Event),
      (step s e).1.timerActive = true → s.timerActive = true ∨ e = Event.mount) := by
  constructor
  · intro s
    refine ⟨rfl, rfl, rfl, rfl, rfl, ?_⟩
    simp [step, clear, clearMeasures]
  · intro s e h
    cases e with
    | mount => right; rfl
    | tick =>
        left
        simp only [step] at h
        split at h <;> simp_all
    | lengthCb c err =>
        left
        simp only [step, getMeasuresLengthCb] at h
        split at h
        · simpa [setErrorState] using h
        · rw [show (updateEventsCount (jsonParse c) s).1.timerActive = s.timerActive
              from (updateEventsCount_preserves _ s).2.1] at h
          exact h
    | measuresCb ms err =>
        left
        simp only [step, getMeasuresCb] at h
        split at h
        · simpa [setErrorState] using h
        · simpa [updateMeasures] using h
    | rawMeasuresCb rms err =>
        left
        simp only [step, getRawMeasuresCb] at h
        split at h <;> simpa [setErrorState] using h
    | userClear => simp [step, clear] at h
    | userReload => simp [step, reload, clear] at h
    | unmount => simp [step, componentWillUnmount] at h

/-- Witness for C5: pressing Clear in the busy state empties the store,
and the timer-rearming implication discharged at the initial state and
the mount event. -/
theorem C5_clear_resets_witness :
    (step busyState Event.userClear).1.store = [] ∧
    (initialState.timerActive = true ∨ Event.mount = Event.mount) :=
  ⟨(C5_clear_resets_and_stops_timer.1 busyState).1,
   C5_clear_resets_and_stops_timer.2 initialState Event.mount (by decide)⟩

/-- Claim C6: when the length callback reports a channel error the step
is exactly `setErrorState`: `hasError` becomes true and `loading` false,
every other field — the store, the timer flag, `perfData`, `totalTime`,
`pendingEvents`, `rawMeasures`, `showChart` — is unchanged, and no
effect is issued (in particular the timer is not cancelled, so the next
tick retries). -/
theorem C6_length_error_only_error_flags :
    ∀ (s : PanelState) (c : JSValue),
      (step s (Event.lengthCb c true)).1 = setErrorState s ∧
      (step s (Event.lengthCb c true)).1.state.hasError = true ∧
      (step s (Event.lengthCb c true)).1.state.loading = false ∧
      (step s (Event.lengthCb c true)).1.store = s.store ∧
      (step s (Event.lengthCb c true)).1.timerActive = s.timerActive ∧
      (step s (Event.lengthCb c true)).1.state.perfData = s.state.perfData ∧
      (step s (Event.lengthCb c true)).1.state.totalTime = s.state.totalTime ∧
      (step s (Event.lengthCb c true)).1.state.pendingEvents =
        s.state.pendingEvents ∧
      (step s (Event.lengthCb c true)).1.state.rawMeasures =
        s.state.rawMeasures ∧
      (step s (Event.lengthCb c true)).1.state.showChart = s.state.showChart ∧
      (step s (Event.lengthCb c true)).2 = [] := by
  intro s c
  simp [step, getMeasuresLengthCb, setErrorState]

/-- Claim C7 (code bug): a measures callback resolving after an explicit
clear is not dropped.  Right after mount and Clear the store is empty,
yet the stale delivery of a one-measure batch appends it: store and
`perfData` lengths become 1, so the callback mutates the store and the
view model instead of being a no-op as the claim requires. -/
theorem C7_stale_callback_mutates_store :
    afterClearState.store = [] ∧
    (step afterClearState (Event.measuresCb [⟨3⟩] false)).1.store.length = 1 ∧
    (step afterClearState
        (Event.measuresCb [⟨3⟩] false)).1.state.perfData.length = 1 := by
  decide

/-- Claim C8: merging the scenario batch with totalTimeSpent values 1.5,
2.5 and 0.0 into an empty store yields store length 3 and publishes the
`toFixed(2)` string "4.00" as the view model's `totalTime`. -/
theorem C8_merge_scenario_totals :
    ∀ s : PanelState, s.store = [] →
      (step s (Event.measuresCb scenarioBatch false)).1.store.length = 3 ∧
      (step s (Event.measuresCb scenarioBatch false)).1.state.totalTime =
        TimeVal.str "4.00" := by
  intro s h
  have htot : totalTimeOf (s.store ++ scenarioBatch) = 4 := by
    rw [h]
    simp only [totalTimeOf, scenarioBatch, List.nil_append, List.foldl]
    norm_num
  have hfl : (⌊(4:ℚ) * 100 + 1 / 2⌋ : ℤ) = 400 := by
    rw [Int.floor_eq_iff]
    norm_num
  have hfix : fixed2 (4:ℚ) = "4.00" := by
    simp only [fixed2, hfl]
    decide
  constructor
  · simp [step, getMeasuresCb, updateMeasures, h, scenarioBatch]
  · simp only [step, getMeasuresCb, Bool.false_eq_true, if_false, updateMeasures,
      htot, hfix]

/-- Witness for C8: the scenario applied at the initial (empty) store. -/
theorem C8_merge_scenario_witness :
    (step initialState (Event.measuresCb scenarioBatch false)).1.store.length = 3 ∧
    (step initialState (Event.measuresCb scenarioBatch false)).1.state.totalTime =
      TimeVal.str "4.00" :=
  C8_merge_scenario_totals initialState rfl

/-- Claim C9: every merge is immediately followed by the external clear
query.  A successfully delivered measures callback issues exactly the
chart drawing and then the clear query — the clear query is the last
effect and the only query issued by the merge — and applying the step's
effects to any external buffer leaves the empty buffer, so no
already-merged event is still buffered when the next poll's fetch runs
(in this model the issued reset is delivered before the next poll,
matching the documented best-effort carve-out for reset failures). -/
theorem C9_merge_immediately_resets_buffer :
    ∀ (ms : List Measure) (s : PanelState) (b : ExtStore),
      (step s (Event.measuresCb ms false)).2 =
        [Effect.drawChart (fixed2 (totalTimeOf (s.store ++ ms)))
           s.state.rawMeasures (s.store ++ ms).length,
         Effect.evalQuery QueryName.clear] ∧
      applyEffectsToExt (step s (Event.measuresCb ms false)).2 b =
        { length := 0, measures := [], rawMeasures := [] } := by
  intro ms s b
  exact ⟨rfl, rfl⟩

/-- Claim C10: the zero-count branch of the length callback is dead
code.  The channel delivers `JSON.stringify` of the buffer length — a
string — and JS strict equality between a string and the number 0 is
false, so for every buffer, the empty one included, a successful length
poll never enters the error state (`hasError` is unchanged), while an
errored poll always does. -/
theorem C10_zero_branch_unreachable :
    ∀ (b : ExtStore) (s : PanelState),
      jsStrictEq (evalLength b) (JSValue.num 0) = false ∧
      (step s (Event.lengthCb (evalLength b) false)).1.state.hasError =
        s.state.hasError ∧
      (∀ c : JSValue,
        (step s (Event.lengthCb c true)).1.state.hasError = true) := by
  intro b s
  refine ⟨rfl, ?_, ?_⟩
  · rw [show evalLength b = JSValue.str (toString b.length) from rfl,
      step_lengthCb_str]
    exact (updateEventsCount_preserves _ s).2.2.2.2.2.2.1
  · intro c
    simp [step, getMeasuresLengthCb, setErrorState]

end ReactPerfDevtool
